import Mathlib

/-!
Verification development for the admission-control and staleness-detection
layer of the elasticell raftstore (pkg/raftstore/store_check.go).

The Go source is shallowly embedded below.  Pure helpers defined in other
files of the repository (not part of the extracted source) are modelled
from the specification and are marked `Modelled from the spec:` in their
doc comments.  Stateful Go methods on `Store` become functions
`Store → input → outcome × Store`; a Go nil-pointer dereference (runtime
fault) is made explicit as the `nilDeref` outcome constructor, so that
every function is total and the fault is observable.
-/

namespace Elasticell

/-- Byte strings (Go `[]byte`) are modelled as lists of naturals. -/
abbrev Key := List Nat

/-- Modelled from the spec: `bytes.Compare` is lexicographic comparison of
byte strings. -/
def bytesCompare : Key → Key → Ordering
  | [], [] => .eq
  | [], _ :: _ => .lt
  | _ :: _, [] => .gt
  | a :: as, b :: bs =>
    match compare a b with
    | .eq => bytesCompare as bs
    | o => o

/-- Boolean strict less-than on byte strings. -/
def bytesLT (a b : Key) : Bool := bytesCompare a b == .lt

/-- Boolean less-or-equal on byte strings. -/
def bytesLE (a b : Key) : Bool := bytesCompare a b != .gt

/-- metapb.CellEpoch: the `(configVersion, version)` pair of a shard. -/
structure CellEpoch where
  ConfVer : Nat
  CellVer : Nat
deriving DecidableEq, Repr

/-- metapb.Peer: one replica of one shard. -/
structure Peer where
  ID : Nat
  StoreID : Nat
deriving DecidableEq, Repr

/-- metapb.Cell: a shard descriptor with key range, epoch and membership. -/
structure Cell where
  ID : Nat
  Start : Key
  End : Key
  Epoch : CellEpoch
  Peers : List Peer
deriving DecidableEq, Repr

/-- mraft local-state tag: `Normal` or `Tombstone`. -/
inductive CellState where
  | Normal
  | Tombstone
deriving DecidableEq, Repr

/-- mraft.CellLocalState: persisted per-shard record; when `Tombstone` it
carries the shard (epoch and membership) at destruction time. -/
structure CellLocalState where
  State : CellState
  Cell : Cell
deriving DecidableEq, Repr

/-- mraft.RaftSnapshotData: the decoded snapshot payload; only the shard
descriptor is relevant to admission control. -/
structure RaftSnapshotData where
  Cell : Cell
deriving DecidableEq, Repr

/-- raftpb message kind: only "is it MsgVote" matters to this layer. -/
inductive MsgType where
  | MsgVote
  | Other
deriving DecidableEq, Repr

/-- raftpb.Snapshot: opaque payload bytes. -/
structure Snapshot where
  Data : List Nat
deriving DecidableEq, Repr

/-- raftpb.Message: inner consensus message with kind and snapshot. -/
structure RaftpbMessage where
  Typ : MsgType
  Snapshot : Snapshot
deriving DecidableEq, Repr

/-- mraft.RaftMessage: the protocol message envelope. -/
structure RaftMessage where
  CellID : Nat
  FromPeer : Peer
  ToPeer : Peer
  CellEpoch : CellEpoch
  Message : RaftpbMessage
deriving DecidableEq, Repr

/-- peerStorage, as seen by this layer: only `isInitialized` is consulted. -/
structure PeerStorage where
  initialized : Bool
deriving DecidableEq, Repr

/-- PeerReplicate: a live replica handle; `getCell()` yields `cell` and
`getStore()` yields `ps`. -/
structure PeerReplicate where
  cell : Cell
  ps : PeerStorage
deriving DecidableEq, Repr

/-- The Store: node id, live-replica registry, Key-Range Index contents,
Pending-Shard Set, and the external persisted local-state store
(spec interface `loadLocalShardState`), keyed by cell id. -/
structure Store where
  id : Nat
  replicas : List (Nat × PeerReplicate)
  keyRanges : List Cell
  pendingCells : List Cell
  localStates : List (Nat × CellLocalState)
deriving DecidableEq, Repr

/-- Modelled from the spec: `getLiveReplica(shardID) -> Shard | none`, the
live-replica registry lookup `s.getPeerReplicate(cellID)` (a Go map read
returning a possibly-nil pointer). -/
def getPeerReplicate (s : Store) (cellID : Nat) : Option PeerReplicate :=
  (s.replicas.find? (fun e => e.fst == cellID)).map (fun e => e.snd)

/-- Modelled from the spec: an epoch is stale relative to another iff it is
strictly less in the order "`(c1,v1) < (c2,v2)` iff `c1 < c2`, or
`c1 == c2 and v1 < v2`" (configVersion-major). -/
def isEpochStale (epoch checkEpoch : CellEpoch) : Bool :=
  Nat.blt epoch.ConfVer checkEpoch.ConfVer ||
    (epoch.ConfVer == checkEpoch.ConfVer &&
      Nat.blt epoch.CellVer checkEpoch.CellVer)

/-- Modelled from the spec: `findPeer(cell, storeID)` returns the peer of
the shard membership located on the given store, or none. -/
def findPeer (c : Cell) (storeID : Nat) : Option Peer :=
  c.Peers.find? (fun p => p.StoreID == storeID)

/-- Encoded keys: `encStartKey`/`encEndKey` map cell bounds into a totally
ordered space in which an empty end key means "unbounded above". -/
inductive EncKey where
  | k (bs : Key)
  | inf
deriving DecidableEq, Repr

/-- Comparison of encoded keys; `inf` is greater than every finite key. -/
def encCompare : EncKey → EncKey → Ordering
  | .k a, .k b => bytesCompare a b
  | .k _, .inf => .lt
  | .inf, .k _ => .gt
  | .inf, .inf => .eq

/-- Boolean strict less-than on encoded keys (`bytes.Compare(a, b) < 0`). -/
def encLT (a b : EncKey) : Bool := encCompare a b == .lt

/-- Boolean strict greater-than on encoded keys (`bytes.Compare(a, b) > 0`). -/
def encGT (a b : EncKey) : Bool := encCompare a b == .gt

/-- Modelled from the spec: `encStartKey` of a cell is its (order-preserving
encoded) start key. -/
def encStartKey (c : Cell) : EncKey := .k c.Start

/-- Modelled from the spec: `encEndKey` of a cell; "treating an empty end
key as unbounded". -/
def encEndKey (c : Cell) : EncKey := if c.End = [] then .inf else .k c.End

/-- The sentinel cell returned by a failed Key-Range Index search; the
caller tests `item.ID > 0`. -/
def emptyCell : Cell :=
  { ID := 0, Start := [], End := [], Epoch := ⟨0, 0⟩, Peers := [] }

/-- Modelled from the spec: `s.keyRanges.Search(key)` returns "the shard
descriptor of the live shard whose start key is the greatest start key
less-or-equal to `key`, or empty/sentinel if none". -/
def Search : List Cell → Key → Cell
  | [], _ => emptyCell
  | c :: cs, key =>
    if bytesLE c.Start key &&
        ((Search cs key).ID == 0 || bytesLT (Search cs key).Start c.Start) then
      c
    else
      Search cs key

/-- The spec's interval intersection test for two cells: the ranges
`[s1,e1)` and `[s2,e2)` intersect iff `s1 < e2 and s2 < e1`, with an empty
end key treated as unbounded.  This follows the spec's words and is used
to compare the code's behaviour against the specified one. -/
def specIntersects (a b : Cell) : Bool :=
  encLT (encStartKey a) (encEndKey b) && encLT (encStartKey b) (encEndKey a)

/-- Outcome of `isMsgStale`: either a Go return `(stale, err)` together
with the `handleStaleMsg` invocation it performed (the compared epoch and
the force-GC flag), or a nil-pointer dereference fault. -/
inductive StaleOutcome where
  | ok (stale : Bool) (err : Option String) (notify : Option (CellEpoch × Bool))
  | nilDeref
deriving DecidableEq, Repr

/-- Outcome of `checkSnapshot`: either a Go return `(accepted, err)` or a
nil-pointer dereference fault. -/
inductive SnapOutcome where
  | ok (accepted : Bool) (err : Option String)
  | nilDeref
deriving DecidableEq, Repr

/-- store_check.go lines 26-36: `isRaftMsgValid` accepts exactly when the
target peer's store id matches this node's id.  The function reads no
registries and returns the store unchanged. -/
def isRaftMsgValid (s : Store) (msg : RaftMessage) : Bool × Store :=
  if msg.ToPeer.StoreID != s.id then (false, s) else (true, s)

/-- store_check.go lines 62-73, the live-replica branch of `isMsgStale`:
stale (and `handleStaleMsg(msg, epoch, isVoteMsg)` runs) iff the message
epoch is stale against the replica's epoch and the sender's store still
appears in the replica's membership. -/
def isMsgStaleLive (s : Store) (msg : RaftMessage) (peers : PeerReplicate) :
    StaleOutcome × Store :=
  if isEpochStale msg.CellEpoch peers.cell.Epoch &&
      (findPeer peers.cell msg.FromPeer.StoreID).isSome then
    (.ok true none (some (peers.cell.Epoch, msg.Message.Typ == .MsgVote)), s)
  else
    (.ok false none none, s)

/-- store_check.go lines 38-113: `isMsgStale`.  When no live replica is
registered for `msg.CellID`, `getPeerReplicate` returns nil, and line 76
evaluates `peers.ps.loadCellLocalState(nil)` — a field access through the
nil `peers` pointer, i.e. a Go runtime fault (`nilDeref`).  The tombstone
logic of lines 81-112 sits behind that access and is unreachable: no
execution of this branch returns. -/
def isMsgStale (s : Store) (msg : RaftMessage) : StaleOutcome × Store :=
  match getPeerReplicate s msg.CellID with
  | some peers => isMsgStaleLive s msg peers
  | none => (.nilDeref, s)

/-- store_check.go lines 161-174, the Pending-Shard Set step of
`checkSnapshot`: reject silently when some pending cell range-overlaps the
incoming cell and has a different id; otherwise append the incoming cell
to `s.pendingCells` and accept. -/
def checkSnapshotPending (s : Store) (snapCell : Cell) : SnapOutcome × Store :=
  if s.pendingCells.any (fun c =>
      encLT (encStartKey c) (encEndKey snapCell) &&
      encGT (encEndKey c) (encStartKey snapCell) &&
      c.ID != snapCell.ID) then
    (.ok false none, s)
  else
    (.ok true none, { s with pendingCells := s.pendingCells ++ [snapCell] })

/-- store_check.go lines 150-159, the Key-Range Index step of
`checkSnapshot`: search the index at the incoming cell's start key; when a
cell is found (`item.ID > 0`), fetch its live replica
(`s.getPeerReplicate(item.ID).getCell()` — a fault if that replica is not
registered) and reject silently when `encStartKey(exist) < encEndKey(snapCell)`;
otherwise fall through to the pending step. -/
def checkSnapshotRange (s : Store) (snapCell : Cell) : SnapOutcome × Store :=
  if 0 < (Search s.keyRanges snapCell.Start).ID then
    match getPeerReplicate s (Search s.keyRanges snapCell.Start).ID with
    | none => (.nilDeref, s)
    | some pe =>
      if encLT (encStartKey pe.cell) (encEndKey snapCell) then
        (.ok false none, s)
      else
        checkSnapshotPending s snapCell
  else
    checkSnapshotPending s snapCell

/-- store_check.go lines 118-148, `checkSnapshot` after the replica handle
is obtained: fast-accept when storage is initialized or the payload is
empty; decode (an error is returned to the caller); silently drop when the
descriptor's membership misses the target peer id; otherwise run the
range checks.  The decoder (`snapData.Unmarshal`, protobuf) is an external
collaborator and is passed in as `dec`. -/
def checkSnapshotBody (dec : List Nat → Except String RaftSnapshotData)
    (s : Store) (msg : RaftMessage) (pr : PeerReplicate) : SnapOutcome × Store :=
  if pr.ps.initialized || msg.Message.Snapshot.Data.length ≤ 0 then
    (.ok true none, s)
  else
    match dec msg.Message.Snapshot.Data with
    | .error e => (.ok false (some e), s)
    | .ok snapData =>
      if snapData.Cell.Peers.any (fun p => p.ID == msg.ToPeer.ID) then
        checkSnapshotRange s snapData.Cell
      else
        (.ok false none, s)

/-- store_check.go lines 115-175: `checkSnapshot`.  Line 117 fetches the
replica handle without a nil check and line 118 immediately calls
`pr.getStore().isInitialized()`; `getStore` (defined outside the extracted
source, modelled from the spec as the accessor of "the addressed replica's
local storage") reads through the handle, so a message whose shard has no
registered replica faults (`nilDeref`). -/
def checkSnapshot (dec : List Nat → Except String RaftSnapshotData)
    (s : Store) (msg : RaftMessage) : SnapOutcome × Store :=
  match getPeerReplicate s msg.CellID with
  | some pr => checkSnapshotBody dec s msg pr
  | none => (.nilDeref, s)

/-- store_check.go lines 177-185: `inPending` reports whether some pending
cell carries the given cell's id. -/
def inPending (s : Store) (cell : Cell) : Bool :=
  s.pendingCells.any (fun c => c.ID == cell.ID)

/-! Concrete inputs used to settle the individual claims. -/

/-- The live shard owning the range `[15,25)` of the spec's overlap
scenario. -/
def c1Live : Cell :=
  { ID := 2, Start := [15], End := [25], Epoch := ⟨1, 1⟩, Peers := [⟨21, 1⟩] }

/-- The incoming snapshot shard `[10,20)` of the spec's overlap scenario;
its membership contains the target peer 5 on store 1. -/
def c1Snap : Cell :=
  { ID := 10, Start := [10], End := [20], Epoch := ⟨1, 1⟩, Peers := [⟨5, 1⟩] }

/-- Uninitialized replica registered for the incoming shard id 10. -/
def c1Pr : PeerReplicate :=
  { cell := { ID := 10, Start := [], End := [], Epoch := ⟨0, 0⟩, Peers := [] },
    ps := ⟨false⟩ }

/-- Initialized live replica backing the live shard 2. -/
def c1PrLive : PeerReplicate := { cell := c1Live, ps := ⟨true⟩ }

/-- Store of the overlap scenario: live shard `[15,25)` in the Key-Range
Index, empty Pending-Shard Set. -/
def c1Store : Store :=
  { id := 1, replicas := [(10, c1Pr), (2, c1PrLive)], keyRanges := [c1Live],
    pendingCells := [], localStates := [] }

/-- Decoder for the overlap scenario: the byte `[1]` decodes to the shard
`[10,20)`. -/
def c1Dec : List Nat → Except String RaftSnapshotData :=
  fun bs => if bs == [1] then .ok ⟨c1Snap⟩ else .error "unmarshal"

/-- Envelope carrying the `[10,20)` snapshot to peer 5 on store 1. -/
def c1Msg : RaftMessage :=
  { CellID := 10, FromPeer := ⟨99, 9⟩, ToPeer := ⟨5, 1⟩, CellEpoch := ⟨1, 1⟩,
    Message := { Typ := .Other, Snapshot := ⟨[1]⟩ } }

/-- First (already pending) descriptor for shard 7 covering `[10,20)`. -/
def c2Old : Cell :=
  { ID := 7, Start := [10], End := [20], Epoch := ⟨1, 1⟩, Peers := [⟨5, 1⟩] }

/-- Refreshed descriptor for the same shard 7 covering the same range. -/
def c2New : Cell :=
  { ID := 7, Start := [10], End := [20], Epoch := ⟨1, 2⟩, Peers := [⟨5, 1⟩] }

/-- Uninitialized replica registered for shard 7. -/
def c2Pr : PeerReplicate :=
  { cell := { ID := 7, Start := [], End := [], Epoch := ⟨0, 0⟩, Peers := [] },
    ps := ⟨false⟩ }

/-- Store with the first descriptor already pending under shard id 7. -/
def c2Store : Store :=
  { id := 1, replicas := [(7, c2Pr)], keyRanges := [], pendingCells := [c2Old],
    localStates := [] }

/-- Decoder for the second snapshot: the byte `[2]` decodes to the
refreshed descriptor. -/
def c2Dec : List Nat → Except String RaftSnapshotData :=
  fun bs => if bs == [2] then .ok ⟨c2New⟩ else .error "unmarshal"

/-- Envelope carrying the second snapshot for shard 7. -/
def c2Msg : RaftMessage :=
  { CellID := 7, FromPeer := ⟨6, 2⟩, ToPeer := ⟨5, 1⟩, CellEpoch := ⟨1, 2⟩,
    Message := { Typ := .Other, Snapshot := ⟨[2]⟩ } }

/-- Store with no live replica and no persisted record for shard 3. -/
def c3Store : Store :=
  { id := 1, replicas := [], keyRanges := [], pendingCells := [],
    localStates := [] }

/-- Message for shard 3, which has neither a replica nor a record. -/
def c3Msg : RaftMessage :=
  { CellID := 3, FromPeer := ⟨31, 2⟩, ToPeer := ⟨32, 1⟩, CellEpoch := ⟨1, 1⟩,
    Message := { Typ := .Other, Snapshot := ⟨[]⟩ } }

/-- A live replica for shard 1, present so the registry is non-trivial. -/
def c4Pr : PeerReplicate :=
  { cell := { ID := 1, Start := [0], End := [5], Epoch := ⟨1, 1⟩, Peers := [⟨11, 1⟩] },
    ps := ⟨true⟩ }

/-- Persisted tombstone record for shard 4. -/
def c4Tomb : Cell :=
  { ID := 4, Start := [5], End := [9], Epoch := ⟨2, 2⟩, Peers := [⟨41, 1⟩] }

/-- Store hosting a replica for shard 1 only, but holding a persisted
tombstone record for shard 4. -/
def c4Store : Store :=
  { id := 1, replicas := [(1, c4Pr)], keyRanges := [], pendingCells := [],
    localStates := [(4, ⟨.Tombstone, c4Tomb⟩)] }

/-- Message for shard 4, which has no live replica. -/
def c4Msg : RaftMessage :=
  { CellID := 4, FromPeer := ⟨42, 2⟩, ToPeer := ⟨41, 1⟩, CellEpoch := ⟨1, 1⟩,
    Message := { Typ := .Other, Snapshot := ⟨[]⟩ } }

/-- Tombstoned shard 7: destroyed at epoch `(3,3)` with members on stores
1 and 3 only (the sender's store 2 is absent). -/
def c5Tomb : Cell :=
  { ID := 7, Start := [0], End := [5], Epoch := ⟨3, 3⟩,
    Peers := [⟨71, 1⟩, ⟨73, 3⟩] }

/-- Store with no live replica for shard 7 but a persisted tombstone
record for it. -/
def c5Store : Store :=
  { id := 1, replicas := [], keyRanges := [], pendingCells := [],
    localStates := [(7, ⟨.Tombstone, c5Tomb⟩)] }

/-- Vote request from former member 2 with the stale epoch `(1,1)`. -/
def c5Msg : RaftMessage :=
  { CellID := 7, FromPeer := ⟨72, 2⟩, ToPeer := ⟨71, 1⟩, CellEpoch := ⟨1, 1⟩,
    Message := { Typ := .MsgVote, Snapshot := ⟨[]⟩ } }

/-- Persisted record for shard 9 whose state is `Normal`, not
`Tombstone` (the corrupt-local-state case of the claim). -/
def c6Rec : CellLocalState :=
  { State := .Normal,
    Cell := { ID := 9, Start := [0], End := [5], Epoch := ⟨1, 1⟩, Peers := [⟨91, 1⟩] } }

/-- Store with no live replica for shard 9 but a persisted non-tombstone
record for it. -/
def c6Store : Store :=
  { id := 1, replicas := [], keyRanges := [], pendingCells := [],
    localStates := [(9, c6Rec)] }

/-- Message for shard 9, whose record is `Normal`. -/
def c6Msg : RaftMessage :=
  { CellID := 9, FromPeer := ⟨92, 2⟩, ToPeer := ⟨91, 1⟩, CellEpoch := ⟨1, 1⟩,
    Message := { Typ := .Other, Snapshot := ⟨[]⟩ } }

/-- Live shard 7 at epoch `(2,2)` with members on stores 1 and 2. -/
def c7Cell : Cell :=
  { ID := 7, Start := [0], End := [10], Epoch := ⟨2, 2⟩,
    Peers := [⟨71, 1⟩, ⟨72, 2⟩] }

/-- Initialized live replica for shard 7. -/
def c7Pr : PeerReplicate := { cell := c7Cell, ps := ⟨true⟩ }

/-- Store hosting the live replica for shard 7. -/
def c7Store : Store :=
  { id := 1, replicas := [(7, c7Pr)], keyRanges := [c7Cell],
    pendingCells := [], localStates := [] }

/-- Stale vote request from member 2 (still in the membership) with
epoch `(1,1)`. -/
def c7Msg : RaftMessage :=
  { CellID := 7, FromPeer := ⟨72, 2⟩, ToPeer := ⟨71, 1⟩, CellEpoch := ⟨1, 1⟩,
    Message := { Typ := .MsgVote, Snapshot := ⟨[]⟩ } }

/-- Uninitialized replica for shard 8. -/
def c8Pr : PeerReplicate :=
  { cell := { ID := 8, Start := [], End := [], Epoch := ⟨0, 0⟩, Peers := [] },
    ps := ⟨false⟩ }

/-- Store hosting only the uninitialized replica for shard 8. -/
def c8Store : Store :=
  { id := 1, replicas := [(8, c8Pr)], keyRanges := [], pendingCells := [],
    localStates := [] }

/-- Decoder that rejects every payload. -/
def c8Dec : List Nat → Except String RaftSnapshotData :=
  fun _ => .error "corrupt"

/-- Snapshot-carrying envelope for shard 8 with a non-empty payload. -/
def c8Msg : RaftMessage :=
  { CellID := 8, FromPeer := ⟨82, 2⟩, ToPeer := ⟨81, 1⟩, CellEpoch := ⟨1, 1⟩,
    Message := { Typ := .Other, Snapshot := ⟨[7]⟩ } }

/-- Store with no replica registered at all. -/
def c10Store : Store :=
  { id := 1, replicas := [], keyRanges := [], pendingCells := [],
    localStates := [] }

/-- Snapshot envelope for shard 12, which has no registered replica. -/
def c10Msg : RaftMessage :=
  { CellID := 12, FromPeer := ⟨2, 2⟩, ToPeer := ⟨1, 1⟩, CellEpoch := ⟨1, 1⟩,
    Message := { Typ := .Other, Snapshot := ⟨[3]⟩ } }

/-- Decoder used with the shard-12 envelopes. -/
def c10Dec : List Nat → Except String RaftSnapshotData :=
  fun _ => .error "unmarshal"

/-- Uninitialized replica for shard 12 used in the amended totality
witness. -/
def c10wPr : PeerReplicate :=
  { cell := { ID := 12, Start := [], End := [], Epoch := ⟨0, 0⟩, Peers := [] },
    ps := ⟨false⟩ }

/-- Store hosting the replica for shard 12 with an empty Key-Range
Index. -/
def c10wStore : Store :=
  { id := 1, replicas := [(12, c10wPr)], keyRanges := [], pendingCells := [],
    localStates := [] }

/-! Helper lemmas shared by the proofs below. -/

/-- The Key-Range Index search returns either the sentinel or a member of
the index. -/
theorem Search_mem (cells : List Cell) (key : Key) :
    Search cells key = emptyCell ∨ Search cells key ∈ cells := by
  induction cells with
  | nil => exact Or.inl rfl
  | cons c cs ih =>
    simp only [Search]
    split
    · exact Or.inr (List.mem_cons_self c cs)
    · rcases ih with h | h
      · exact Or.inl h
      · exact Or.inr (List.mem_cons_of_mem c h)

/-- The pending-overlap step never returns an error value. -/
theorem checkSnapshotPending_no_error (s : Store) (sc : Cell) (b : Bool)
    (e : String) : (checkSnapshotPending s sc).1 ≠ SnapOutcome.ok b (some e) := by
  unfold checkSnapshotPending
  split <;> simp

/-- The live-range step never returns an error value. -/
theorem checkSnapshotRange_no_error (s : Store) (sc : Cell) (b : Bool)
    (e : String) : (checkSnapshotRange s sc).1 ≠ SnapOutcome.ok b (some e) := by
  unfold checkSnapshotRange
  split
  · split
    · simp
    · split
      · simp
      · exact checkSnapshotPending_no_error s sc b e
  · exact checkSnapshotPending_no_error s sc b e

/-- The pending-overlap step always reaches a Go return. -/
theorem checkSnapshotPending_decides (s : Store) (sc : Cell) :
    ∃ b oe, (checkSnapshotPending s sc).1 = SnapOutcome.ok b oe := by
  unfold checkSnapshotPending
  split
  · exact ⟨false, none, rfl⟩
  · exact ⟨true, none, rfl⟩

/-- The live-range step reaches a Go return whenever every cell of the
Key-Range Index is backed by a registered replica. -/
theorem checkSnapshotRange_decides (s : Store) (sc : Cell)
    (hwf : ∀ c ∈ s.keyRanges, (getPeerReplicate s c.ID).isSome = true) :
    ∃ b oe, (checkSnapshotRange s sc).1 = SnapOutcome.ok b oe := by
  unfold checkSnapshotRange
  by_cases hid : 0 < (Search s.keyRanges sc.Start).ID
  · rw [if_pos hid]
    have hmem : Search s.keyRanges sc.Start ∈ s.keyRanges := by
      rcases Search_mem s.keyRanges sc.Start with h | h
      · rw [h] at hid
        simp [emptyCell] at hid
      · exact h
    have hs := hwf _ hmem
    cases hg : getPeerReplicate s (Search s.keyRanges sc.Start).ID with
    | none => rw [hg] at hs; simp at hs
    | some pe =>
      dsimp only
      split
      · exact ⟨false, none, rfl⟩
      · exact checkSnapshotPending_decides s sc
  · rw [if_neg hid]
    exact checkSnapshotPending_decides s sc

/-! Claim theorems. -/

/-- Claim C1: the spec requires the incoming snapshot shard `[10,20)` to
be rejected silently while a live shard owns `[15,25)` — the two ranges
intersect under the spec's intersection test — but the code admits it:
the Key-Range Index search at start key 10 returns the sentinel because
no live shard's start key is at most 10, so the live shard `[15,25)` is
never compared, the snapshot is accepted and its descriptor is appended
to the Pending-Shard Set, overlapping the live shard. -/
theorem c1_live_overlap_scenario_admitted :
    specIntersects c1Live c1Snap = true ∧
    (checkSnapshot c1Dec c1Store c1Msg).1 = SnapOutcome.ok true none ∧
    (checkSnapshot c1Dec c1Store c1Msg).2.pendingCells = [c1Snap] := by
  decide

/-- Claim C2 counterexample: the second snapshot for shard 7, whose range
is already pending under the same shard id, is accepted — but the
incoming descriptor is appended, not substituted: afterwards the
Pending-Shard Set holds two entries with shard id 7, refuting "after
admission at most one pending entry exists per shardID". -/
theorem c2_second_snapshot_duplicates_pending :
    (checkSnapshot c2Dec c2Store c2Msg).1 = SnapOutcome.ok true none ∧
    ((checkSnapshot c2Dec c2Store c2Msg).2.pendingCells.filter
      (fun c => c.ID == 7)).length = 2 := by
  decide

/-- Claim C3: for a message whose shard has no live replica and no
persisted record, the claim requires the return (not stale, no error);
the code instead dereferences the nil replica handle (`peers.ps` at line
76) before any load can happen and faults. -/
theorem c3_no_record_nil_deref :
    getPeerReplicate c3Store c3Msg.CellID = none ∧
    c3Store.localStates.find? (fun e => e.fst == c3Msg.CellID) = none ∧
    (isMsgStale c3Store c3Msg).1 = StaleOutcome.nilDeref := by
  decide

/-- Claim C4: `isMsgStale` is claimed total for every envelope, including
those whose shard has no live replica; on such an envelope the code
reaches line 76 with a nil `peers` and the field access `peers.ps`
faults instead of reaching a decision. -/
theorem c4_missing_replica_nil_deref :
    getPeerReplicate c4Store c4Msg.CellID = none ∧
    (isMsgStale c4Store c4Msg).1 = StaleOutcome.nilDeref := by
  decide

/-- Claim C5: the tombstone scenario — a vote request with a stale epoch
from a sender absent from the tombstoned membership is claimed to yield
(stale, no error) with notify set — but the persisted tombstone record is
never consulted: the nil replica handle is dereferenced first and the
call faults. -/
theorem c5_tombstone_vote_nil_deref :
    getPeerReplicate c5Store c5Msg.CellID = none ∧
    c5Store.localStates.find? (fun e => e.fst == c5Msg.CellID) =
      some (7, ⟨CellState.Tombstone, c5Tomb⟩) ∧
    isEpochStale c5Msg.CellEpoch c5Tomb.Epoch = true ∧
    findPeer c5Tomb c5Msg.FromPeer.StoreID = none ∧
    c5Msg.Message.Typ = MsgType.MsgVote ∧
    (isMsgStale c5Store c5Msg).1 = StaleOutcome.nilDeref := by
  decide

/-- Claim C6: a persisted non-tombstone record with no live replica is
claimed to produce a "corrupt local state" error return; the code never
reads the record — it faults on the nil replica handle first, and hence
no execution of `isMsgStale` ever returns an error at all. -/
theorem c6_corrupt_state_nil_deref :
    getPeerReplicate c6Store c6Msg.CellID = none ∧
    c6Store.localStates.find? (fun e => e.fst == c6Msg.CellID) = some (9, c6Rec) ∧
    c6Rec.State = CellState.Normal ∧
    (isMsgStale c6Store c6Msg).1 = StaleOutcome.nilDeref := by
  decide

/-- Claim C9: neither `isRaftMsgValid` nor `isMsgStale` mutates the
Key-Range Index or the Pending-Shard Set, whatever disposition they
return (including the fault case, which writes nothing). -/
theorem c9_validators_preserve_registries (s : Store) (msg : RaftMessage) :
    (isRaftMsgValid s msg).2.keyRanges = s.keyRanges ∧
    (isRaftMsgValid s msg).2.pendingCells = s.pendingCells ∧
    (isMsgStale s msg).2.keyRanges = s.keyRanges ∧
    (isMsgStale s msg).2.pendingCells = s.pendingCells := by
  have h1 : (isRaftMsgValid s msg).2 = s := by
    unfold isRaftMsgValid
    split <;> rfl
  have h2 : (isMsgStale s msg).2 = s := by
    unfold isMsgStale isMsgStaleLive
    split <;> first
      | rfl
      | (split <;> rfl)
  rw [h1, h2]
  exact ⟨rfl, rfl, rfl, rfl⟩

/-- Claim C10 counterexample: a snapshot envelope for a shard with no
registered replica does not complete the initialized-storage fast check —
the replica handle is nil and reading its storage faults. -/
theorem c10_missing_replica_faults :
    getPeerReplicate c10Store c10Msg.CellID = none ∧
    (checkSnapshot c10Dec c10Store c10Msg).1 = SnapOutcome.nilDeref := by
  decide

/-- Claim C7: with a live replica present, `isMsgStale` returns
(stale, no error) and invokes the stale disposition
(`handleStaleMsg(msg, epoch, isVoteMsg)`) exactly when the message epoch
is stale against the replica's epoch and the sender's store is still in
the replica's membership; in every other live-replica case it returns
(not stale, no error) with no disposition. -/
theorem c7_live_replica_staleness (s : Store) (msg : RaftMessage)
    (pr : PeerReplicate) (hpr : getPeerReplicate s msg.CellID = some pr) :
    ((isMsgStale s msg).1 = StaleOutcome.ok true none
        (some (pr.cell.Epoch, msg.Message.Typ == MsgType.MsgVote)) ∨
      (isMsgStale s msg).1 = StaleOutcome.ok false none none) ∧
    ((isMsgStale s msg).1 = StaleOutcome.ok true none
        (some (pr.cell.Epoch, msg.Message.Typ == MsgType.MsgVote)) ↔
      (isEpochStale msg.CellEpoch pr.cell.Epoch = true ∧
        (findPeer pr.cell msg.FromPeer.StoreID).isSome = true)) := by
  have h : isMsgStale s msg = isMsgStaleLive s msg pr := by
    unfold isMsgStale
    simp [hpr]
  rw [h]
  unfold isMsgStaleLive
  by_cases hc : (isEpochStale msg.CellEpoch pr.cell.Epoch &&
      (findPeer pr.cell msg.FromPeer.StoreID).isSome) = true
  · rw [if_pos hc]
    rw [Bool.and_eq_true] at hc
    exact ⟨Or.inl rfl, fun _ => hc, fun _ => rfl⟩
  · rw [if_neg hc]
    rw [Bool.and_eq_true] at hc
    refine ⟨Or.inr rfl, ?_, fun hx => absurd hx hc⟩
    intro hcontra
    simp at hcontra

/-- Claim C7 witness: the live replica for shard 7 at epoch `(2,2)`
receives a vote request with epoch `(1,1)` from member store 2. -/
theorem c7_live_replica_staleness_witness :
    ((isMsgStale c7Store c7Msg).1 = StaleOutcome.ok true none
        (some (c7Pr.cell.Epoch, c7Msg.Message.Typ == MsgType.MsgVote)) ∨
      (isMsgStale c7Store c7Msg).1 = StaleOutcome.ok false none none) ∧
    ((isMsgStale c7Store c7Msg).1 = StaleOutcome.ok true none
        (some (c7Pr.cell.Epoch, c7Msg.Message.Typ == MsgType.MsgVote)) ↔
      (isEpochStale c7Msg.CellEpoch c7Pr.cell.Epoch = true ∧
        (findPeer c7Pr.cell c7Msg.FromPeer.StoreID).isSome = true)) :=
  c7_live_replica_staleness c7Store c7Msg c7Pr (by decide)

/-- Claim C2 amended: a snapshot that reaches the pending step and whose
only range overlaps in the Pending-Shard Set carry its own shard id is
accepted, and its descriptor is appended to the set — the prior
same-shard-id entry is retained, not replaced. -/
theorem c2_amended_accept_appends (dec : List Nat → Except String RaftSnapshotData)
    (s : Store) (msg : RaftMessage) (pr : PeerReplicate) (sd : RaftSnapshotData)
    (hpr : getPeerReplicate s msg.CellID = some pr)
    (hinit : pr.ps.initialized = false)
    (hdata : msg.Message.Snapshot.Data ≠ [])
    (hdec : dec msg.Message.Snapshot.Data = Except.ok sd)
    (hfound : sd.Cell.Peers.any (fun p => p.ID == msg.ToPeer.ID) = true)
    (hsearch : (Search s.keyRanges sd.Cell.Start).ID = 0)
    (hpend : ∀ c ∈ s.pendingCells,
      (encLT (encStartKey c) (encEndKey sd.Cell) &&
        encGT (encEndKey c) (encStartKey sd.Cell)) = true → c.ID = sd.Cell.ID) :
    (checkSnapshot dec s msg).1 = SnapOutcome.ok true none ∧
    (checkSnapshot dec s msg).2.pendingCells = s.pendingCells ++ [sd.Cell] := by
  have hlen : ¬ msg.Message.Snapshot.Data.length ≤ 0 := by
    intro hle
    exact hdata (List.length_eq_zero.mp (Nat.le_zero.mp hle))
  have heq : checkSnapshot dec s msg = checkSnapshotPending s sd.Cell := by
    unfold checkSnapshot
    simp only [hpr]
    unfold checkSnapshotBody
    rw [if_neg (by simp [hinit, hlen])]
    simp only [hdec]
    rw [if_pos hfound]
    unfold checkSnapshotRange
    rw [if_neg (by simp [hsearch])]
  have hany : (s.pendingCells.any (fun c =>
      encLT (encStartKey c) (encEndKey sd.Cell) &&
      encGT (encEndKey c) (encStartKey sd.Cell) &&
      c.ID != sd.Cell.ID)) = false := by
    rw [List.any_eq_false]
    intro c hc
    by_cases hab : (encLT (encStartKey c) (encEndKey sd.Cell) &&
        encGT (encEndKey c) (encStartKey sd.Cell)) = true
    · have hid := hpend c hc hab
      simp [hab, hid]
    · rw [Bool.not_eq_true] at hab
      simp [hab]
  rw [heq]
  unfold checkSnapshotPending
  rw [if_neg (by simp [hany])]
  exact ⟨rfl, rfl⟩

/-- Claim C2 amended witness: the concrete same-shard-id refresh of the
counterexample, showing acceptance and the append. -/
theorem c2_amended_accept_appends_witness :
    (checkSnapshot c2Dec c2Store c2Msg).1 = SnapOutcome.ok true none ∧
    (checkSnapshot c2Dec c2Store c2Msg).2.pendingCells =
      c2Store.pendingCells ++ [c2New] :=
  c2_amended_accept_appends c2Dec c2Store c2Msg c2Pr ⟨c2New⟩ (by decide)
    (by decide) (by decide) rfl (by decide) (by decide) (by decide)

/-- Claim C10 amended: `checkSnapshot` reaches a definite Go return with
no nil dereference on every envelope whose shard has a registered
replica, provided every cell of the Key-Range Index is backed by a
registered replica. -/
theorem c10_amended_total_with_replica
    (dec : List Nat → Except String RaftSnapshotData) (s : Store)
    (msg : RaftMessage) (pr : PeerReplicate)
    (hpr : getPeerReplicate s msg.CellID = some pr)
    (hwf : ∀ c ∈ s.keyRanges, (getPeerReplicate s c.ID).isSome = true) :
    ∃ b oe, (checkSnapshot dec s msg).1 = SnapOutcome.ok b oe := by
  unfold checkSnapshot
  simp only [hpr]
  unfold checkSnapshotBody
  split
  · exact ⟨true, none, rfl⟩
  · cases hdec : dec msg.Message.Snapshot.Data with
    | error e =>
      simp only [hdec]
      exact ⟨false, some e, rfl⟩
    | ok sd =>
      simp only [hdec]
      split
      · exact checkSnapshotRange_decides s sd.Cell hwf
      · exact ⟨false, none, rfl⟩

/-- Claim C10 amended witness: shard 12 has a registered (uninitialized)
replica and the Key-Range Index is empty, so the check reaches a
return. -/
theorem c10_amended_total_with_replica_witness :
    ∃ b oe, (checkSnapshot c10Dec c10wStore c10Msg).1 = SnapOutcome.ok b oe :=
  c10_amended_total_with_replica c10Dec c10wStore c10Msg c10wPr (by decide)
    (by decide)

/-- Claim C8: with the addressed replica present, `checkSnapshot` returns
an error exactly when the storage is uninitialized, the payload is
non-empty, and decoding fails; an initialized storage or empty payload is
accepted immediately, and a decoded descriptor whose membership misses
the target peer id is rejected silently with no error. -/
theorem c8_snapshot_error_conditions
    (dec : List Nat → Except String RaftSnapshotData) (s : Store)
    (msg : RaftMessage) (pr : PeerReplicate)
    (hpr : getPeerReplicate s msg.CellID = some pr) :
    ((∃ e, (checkSnapshot dec s msg).1 = SnapOutcome.ok false (some e)) ↔
      (pr.ps.initialized = false ∧ msg.Message.Snapshot.Data ≠ [] ∧
        ∃ e, dec msg.Message.Snapshot.Data = Except.error e)) ∧
    ((pr.ps.initialized = true ∨ msg.Message.Snapshot.Data = []) →
      (checkSnapshot dec s msg).1 = SnapOutcome.ok true none) ∧
    (∀ sd, pr.ps.initialized = false → msg.Message.Snapshot.Data ≠ [] →
      dec msg.Message.Snapshot.Data = Except.ok sd →
      sd.Cell.Peers.any (fun p => p.ID == msg.ToPeer.ID) = false →
      (checkSnapshot dec s msg).1 = SnapOutcome.ok false none) := by
  have hcs : checkSnapshot dec s msg = checkSnapshotBody dec s msg pr := by
    unfold checkSnapshot
    simp [hpr]
  rw [hcs]
  by_cases hini : pr.ps.initialized = true
  · have hbody : checkSnapshotBody dec s msg pr = (.ok true none, s) := by
      unfold checkSnapshotBody
      rw [if_pos (by simp [hini])]
    rw [hbody]
    refine ⟨⟨?_, ?_⟩, fun _ => rfl, ?_⟩
    · rintro ⟨e, he⟩
      simp at he
    · rintro ⟨hfalse, -, -⟩
      simp [hini] at hfalse
    · intro sd hfalse _ _ _
      simp [hini] at hfalse
  · by_cases hdat : msg.Message.Snapshot.Data = []
    · have hbody : checkSnapshotBody dec s msg pr = (.ok true none, s) := by
        unfold checkSnapshotBody
        rw [if_pos (by simp [hdat])]
      rw [hbody]
      refine ⟨⟨?_, ?_⟩, fun _ => rfl, ?_⟩
      · rintro ⟨e, he⟩
        simp at he
      · rintro ⟨-, hne, -⟩
        exact absurd hdat hne
      · intro sd _ hne _ _
        exact absurd hdat hne
    · rw [Bool.not_eq_true] at hini
      have hlen : ¬ msg.Message.Snapshot.Data.length ≤ 0 := by
        intro hle
        exact hdat (List.length_eq_zero.mp (Nat.le_zero.mp hle))
      have hbody : checkSnapshotBody dec s msg pr =
          (match dec msg.Message.Snapshot.Data with
            | .error e => (SnapOutcome.ok false (some e), s)
            | .ok snapData =>
              if snapData.Cell.Peers.any (fun p => p.ID == msg.ToPeer.ID) then
                checkSnapshotRange s snapData.Cell
              else
                (SnapOutcome.ok false none, s)) := by
        unfold checkSnapshotBody
        rw [if_neg (by simp [hini, hlen])]
      rw [hbody]
      cases hdec : dec msg.Message.Snapshot.Data with
      | error e =>
        refine ⟨⟨?_, ?_⟩, ?_, ?_⟩
        · intro _
          exact ⟨hini, hdat, e, rfl⟩
        · intro _
          exact ⟨e, rfl⟩
        · rintro (h | h)
          · simp [hini] at h
          · exact absurd h hdat
        · intro sd _ _ hsd _
          exact Except.noConfusion hsd
      | ok sd =>
        dsimp only
        by_cases hf : (sd.Cell.Peers.any (fun p => p.ID == msg.ToPeer.ID)) = true
        · rw [if_pos hf]
          refine ⟨⟨?_, ?_⟩, ?_, ?_⟩
          · rintro ⟨e, he⟩
            exact absurd he (checkSnapshotRange_no_error s sd.Cell false e)
          · rintro ⟨-, -, e, he⟩
            exact Except.noConfusion he
          · rintro (h | h)
            · simp [hini] at h
            · exact absurd h hdat
          · intro sd2 _ _ hsd2 hany2
            cases hsd2
            rw [hf] at hany2
            exact Bool.noConfusion hany2
        · rw [if_neg hf]
          refine ⟨⟨?_, ?_⟩, ?_, ?_⟩
          · rintro ⟨e, he⟩
            simp at he
          · rintro ⟨-, -, e, he⟩
            exact Except.noConfusion he
          · rintro (h | h)
            · simp [hini] at h
            · exact absurd h hdat
          · intro sd2 _ _ hsd2 _
            cases hsd2
            rfl

/-- Claim C8 witness: shard 8's replica is uninitialized, the payload is
the non-empty `[7]`, and the decoder rejects it, so the call returns the
decode error. -/
theorem c8_snapshot_error_conditions_witness :
    ((∃ e, (checkSnapshot c8Dec c8Store c8Msg).1 = SnapOutcome.ok false (some e)) ↔
      (c8Pr.ps.initialized = false ∧ c8Msg.Message.Snapshot.Data ≠ [] ∧
        ∃ e, c8Dec c8Msg.Message.Snapshot.Data = Except.error e)) ∧
    ((c8Pr.ps.initialized = true ∨ c8Msg.Message.Snapshot.Data = []) →
      (checkSnapshot c8Dec c8Store c8Msg).1 = SnapOutcome.ok true none) ∧
    (∀ sd, c8Pr.ps.initialized = false → c8Msg.Message.Snapshot.Data ≠ [] →
      c8Dec c8Msg.Message.Snapshot.Data = Except.ok sd →
      sd.Cell.Peers.any (fun p => p.ID == c8Msg.ToPeer.ID) = false →
      (checkSnapshot c8Dec c8Store c8Msg).1 = SnapOutcome.ok false none) :=
  c8_snapshot_error_conditions c8Dec c8Store c8Msg c8Pr (by decide)

end Elasticell
